import Mathlib

/-!
A shallow embedding of the WhatsApp bot repository (app.js,
src/services/whatsappService.js, src/api/server.js, src/config/database.js)
for verifying its specification.

Modelling conventions:
* The SQLite tables are modelled as Lean lists of row structures; `INSERT`
  appends at the end (SQLite rowid/insertion order), `INSERT OR IGNORE` with a
  `UNIQUE` column first checks for an existing row with the same key.
* The `DATETIME DEFAULT CURRENT_TIMESTAMP` column of the messages table is
  modelled as a monotone counter (the number of rows already in the table at
  insertion time): under the single sequential flow of control of the program,
  wall-clock timestamps of successive inserts are monotone in exactly this way.
* JavaScript promise rejection / thrown exceptions are modelled with `Except`:
  an external call that may fail is passed in as an `Except` value (the
  outcome the external library produced), and a JS function that itself never
  throws to its caller returns `Except.ok` in every case.
* The external WhatsApp client transport (`this.client.sendMessage`) is an
  oracle `sendOk : String → Bool` giving the transport outcome per target.
-/

namespace Database

/-- A row of the `subscribers` table
(`whatsapp_id TEXT UNIQUE, phone_number TEXT, first_message TEXT`). -/
structure Subscriber where
  whatsapp_id : String
  phone_number : String
  first_message : String
deriving DecidableEq

/-- A row of the `messages` table (`whatsapp_id TEXT, message TEXT,
received_at DATETIME DEFAULT CURRENT_TIMESTAMP`); `received_at` is modelled
as a monotone counter, see the module docstring. -/
structure MessageRow where
  whatsapp_id : String
  message : String
  received_at : Nat
deriving DecidableEq

/-- `Database.addSubscriber` (database.js, `INSERT OR IGNORE INTO subscribers`):
inserts a row only when no row with the same `whatsapp_id` exists (the column
is `UNIQUE`), and resolves `true` in either case. -/
def addSubscriber (db : List Subscriber) (whatsappId phoneNumber firstMessage : String) :
    List Subscriber × Bool :=
  if db.any (fun row => row.whatsapp_id == whatsappId) then
    (db, true)
  else
    (db ++ [⟨whatsappId, phoneNumber, firstMessage⟩], true)

/-- `Database.logMessage` (database.js, `INSERT INTO messages`): appends one
row unconditionally and resolves `true`. The `received_at` default timestamp
is modelled by the current table length (monotone clock). -/
def logMessage (msgs : List MessageRow) (whatsappId message : String) :
    List MessageRow × Bool :=
  (msgs ++ [⟨whatsappId, message, msgs.length⟩], true)

/-- Iterated `logMessage` for one identity over a list of message texts. -/
def logMessages (msgs : List MessageRow) (whatsappId : String) (texts : List String) :
    List MessageRow :=
  texts.foldl (fun m t => (logMessage m whatsappId t).1) msgs

end Database

namespace WhatsAppService

open Database

/-- The per-client mutable state of `WhatsAppService` that the event handlers
touch: the `isReady` flag, plus a ghost counter of how many times
`this.client.initialize()` has been invoked. -/
structure ClientState where
  isReady : Bool
  initCalls : Nat
deriving DecidableEq

/-- The events wired in `setupEventHandlers` (whatsappService.js). -/
inductive Event where
  | qr
  | ready
  | disconnected
  | message
  | authFailure
deriving DecidableEq

/-- The effect of each event handler in `setupEventHandlers` on the client
state: `ready` sets `isReady`; `disconnected` clears `isReady` and calls
`this.client.initialize()` once; the `qr`, `message` and `auth_failure`
handlers do not touch `isReady` and never re-initialize the client. -/
def handleEvent (s : ClientState) (e : Event) : ClientState :=
  match e with
  | .qr => s
  | .ready => { s with isReady := true }
  | .disconnected => { isReady := false, initCalls := s.initCalls + 1 }
  | .message => s
  | .authFailure => s

/-- A sequence of events folded through the handlers. -/
def runEvents (s : ClientState) (es : List Event) : ClientState :=
  es.foldl handleEvent s

/-- `WhatsAppService.sendMessage(to, message)` (whatsappService.js 135-149).
`clientSend` is the outcome of the external `this.client.sendMessage` call.
The whole body is inside `try/catch`, and the `catch` returns `false`, so the
function returns a `Bool` to its caller in every case: the result type
`Except String Bool` records that it never throws (`Except.error` is
unreachable). -/
def sendMessage (isReady : Bool) (clientSend : Except String Unit) :
    Except String Bool :=
  if !isReady then
    .ok false
  else
    match clientSend with
    | .ok _ => .ok true
    | .error _ => .ok false

/-- The `{success, failed}` tally returned by `broadcastMessage`. -/
structure Tally where
  success : Nat
  failed : Nat
deriving DecidableEq

/-- The observable outcome of `broadcastMessage`, with two ghost fields:
`listReads` counts invocations of `database.getAllSubscribers()`, and
`attempts` lists the targets passed to `this.client.sendMessage`, in order. -/
structure BroadcastOutcome where
  tally : Tally
  listReads : Nat
  attempts : List String
deriving DecidableEq

/-- The body of the `for (const subscriber of subscribers)` loop of
`broadcastMessage`: one send attempt per subscriber, the inner `try/catch`
incrementing `success` on a successful send and `failed` on a thrown one. -/
def broadcastStep (sendOk : String → Bool) (acc : Tally × List String)
    (sub : Subscriber) : Tally × List String :=
  if sendOk sub.whatsapp_id then
    (⟨acc.1.success + 1, acc.1.failed⟩, acc.2 ++ [sub.whatsapp_id])
  else
    (⟨acc.1.success, acc.1.failed + 1⟩, acc.2 ++ [sub.whatsapp_id])

/-- `WhatsAppService.broadcastMessage(message)` (whatsappService.js 156-183).
`getAll` is the outcome of the external `database.getAllSubscribers()` call
(`Except.error` models a rejected promise, which the outer `catch` turns into
`{success: 0, failed: 0}`); `sendOk` is the transport oracle. -/
def broadcastMessage (isReady : Bool) (getAll : Except String (List Subscriber))
    (sendOk : String → Bool) : BroadcastOutcome :=
  if !isReady then
    ⟨⟨0, 0⟩, 0, []⟩
  else
    match getAll with
    | .error _ => ⟨⟨0, 0⟩, 1, []⟩
    | .ok subscribers =>
      let r := subscribers.foldl (broadcastStep sendOk) (⟨0, 0⟩, [])
      ⟨r.1, 1, r.2⟩

/-- The replies `handleCommands` can issue (whatsappService.js 113-127);
the `!info` reply embeds `JSON.stringify(msg, null, 2)`, supplied externally
as `dump`. -/
def greetingReply : String := "¡Hola! Soy un bot de WhatsApp 🤖"

/-- The `!ayuda` / `!help` reply text. -/
def helpReply : String :=
  "Comandos disponibles:\n- hola: Saludo\n- !info: Ver información del mensaje\n- !ayuda: Ver esta ayuda"

/-- JavaScript `msg.body.toLowerCase()` over a body modelled as `List Char`
(character-wise lowering; it agrees with JS on the ASCII command table). -/
def jsToLower (s : List Char) : List Char :=
  s.map Char.toLower

/-- `WhatsAppService.handleCommands(msg)`: lower-cases `msg.body` and matches
it exactly against the fixed command table; an unmatched body sends no reply
(`none`). `dump` stands for `JSON.stringify(msg, null, 2)`. -/
def handleCommands (dump : String) (body : List Char) : Option String :=
  let command := jsToLower body
  if command = "hola".data then
    some greetingReply
  else if command = "!info".data then
    some ("Aquí está tu info:\n" ++ dump)
  else if command = "!ayuda".data ∨ command = "!help".data then
    some helpReply
  else
    none

/-- JavaScript `String.prototype.split(sep)` restricted to a single-character
separator, over strings modelled as `List Char`: splits at every occurrence of
`sep`, keeping empty pieces, always returning at least one piece. -/
def jsSplit (sep : Char) : List Char → List (List Char)
  | [] => [[]]
  | c :: cs =>
    if c = sep then
      [] :: jsSplit sep cs
    else
      match jsSplit sep cs with
      | [] => [[c]]
      | p :: ps => (c :: p) :: ps

/-- `msg.from.split('@')[0]` (whatsappService.js line 88): the phone number
derived from the raw sender address. -/
def extractPhone (addr : List Char) : List Char :=
  (jsSplit '@' addr).headD []

end WhatsAppService

namespace ApiServer

/-- The observable outcome of one request to `POST /api/send`
(server.js 70-101): the HTTP status, the `success` flag of the JSON envelope,
and a ghost flag recording whether `whatsappService.sendMessage` was invoked. -/
structure SendRouteOutcome where
  status : Nat
  success : Bool
  invoked : Bool
deriving DecidableEq

/-- JavaScript truthiness of a (string-valued or absent) body field:
`!x` holds when the field is absent or the empty string. -/
def truthy (field : Option String) : Bool :=
  match field with
  | none => false
  | some s => !(s == "")

/-- The `POST /api/send` handler (server.js 70-101): `if (!to || !message)`
responds 400 with `success:false`; otherwise it awaits
`whatsappService.sendMessage(to, message)` (outcome `sendResult`) and responds
200 `success:true` on `true`, 500 `success:false` on `false`. -/
def postSend (toField messageField : Option String) (sendResult : Bool) : SendRouteOutcome :=
  if !(truthy toField) || !(truthy messageField) then
    ⟨400, false, false⟩
  else if sendResult then
    ⟨200, true, true⟩
  else
    ⟨500, false, true⟩

end ApiServer

namespace WhatsAppService

/-- The broadcast loop fold, characterized from any starting accumulator: one
success per subscriber the transport accepts, one failure per subscriber it
rejects, every target recorded in listing order. -/
theorem broadcast_foldl (sendOk : String → Bool) (subs : List Database.Subscriber)
    (acc : Tally × List String) :
    subs.foldl (broadcastStep sendOk) acc =
      (⟨acc.1.success + subs.countP (fun s => sendOk s.whatsapp_id),
        acc.1.failed + subs.countP (fun s => !(sendOk s.whatsapp_id))⟩,
       acc.2 ++ subs.map (fun s => s.whatsapp_id)) := by
  induction subs generalizing acc with
  | nil => simp
  | cons h t ih =>
    cases hs : sendOk h.whatsapp_id <;>
      simp [List.foldl_cons, broadcastStep, hs, ih, List.countP_cons, Nat.add_assoc,
        Nat.add_comm 1]

/-- Counting the subscribers a predicate accepts and those it rejects
covers the whole list. -/
theorem countP_not_add (subs : List Database.Subscriber) (p : Database.Subscriber → Bool) :
    subs.countP p + subs.countP (fun s => !(p s)) = subs.length := by
  induction subs with
  | nil => simp
  | cons h t ih =>
    cases hs : p h <;> simp [List.countP_cons, hs] <;> omega

/-- Claim C1: a broadcast invoked while the client is ready, with the
subscriber list read successfully, reads the list exactly once, attempts
delivery to every subscriber in listing order, and increments exactly one of
the two counters per subscriber (success counts the accepted sends, failed
the rejected ones, and they sum to the subscriber count, so one failure does
not abort the loop); concretely, with S1 accepted and S2 rejected it returns
`{success:1, failed:1}` after attempting both, and with an empty subscriber
list it returns `{success:0, failed:0}`. -/
theorem c1_broadcast_ready_tally :
    (∀ (subs : List Database.Subscriber) (sendOk : String → Bool),
        (broadcastMessage true (.ok subs) sendOk).listReads = 1
      ∧ (broadcastMessage true (.ok subs) sendOk).attempts
          = subs.map (fun s => s.whatsapp_id)
      ∧ (broadcastMessage true (.ok subs) sendOk).tally.success
          = subs.countP (fun s => sendOk s.whatsapp_id)
      ∧ (broadcastMessage true (.ok subs) sendOk).tally.failed
          = subs.countP (fun s => !(sendOk s.whatsapp_id))
      ∧ (broadcastMessage true (.ok subs) sendOk).tally.success
          + (broadcastMessage true (.ok subs) sendOk).tally.failed = subs.length)
  ∧ broadcastMessage true
      (.ok [⟨"S1@c.us", "S1", "m1"⟩, ⟨"S2@c.us", "S2", "m2"⟩])
      (fun target => target == "S1@c.us")
      = ⟨⟨1, 1⟩, 1, ["S1@c.us", "S2@c.us"]⟩
  ∧ (∀ sendOk : String → Bool,
      broadcastMessage true (.ok []) sendOk = ⟨⟨0, 0⟩, 1, []⟩) := by
  refine ⟨fun subs sendOk => ?_, by decide, fun sendOk => rfl⟩
  simp only [broadcastMessage, Bool.not_true, Bool.false_eq_true, if_false,
    broadcast_foldl, Nat.zero_add, List.nil_append]
  exact ⟨trivial, trivial, trivial, trivial, countP_not_add subs (fun s => sendOk s.whatsapp_id)⟩

/-- Claim C2: a broadcast invoked while the client is not ready returns
`{success: 0, failed: 0}` as an ordinary value (not a thrown error), without
reading the subscriber list (`listReads = 0`) and without attempting a single
send; its tally is identical to that of a ready broadcast over an empty
subscriber list, so the two cases are indistinguishable from the return
value. -/
theorem c2_broadcast_not_ready :
    (∀ (getAll : Except String (List Database.Subscriber)) (sendOk : String → Bool),
        broadcastMessage false getAll sendOk = ⟨⟨0, 0⟩, 0, []⟩)
  ∧ (∀ (getAll : Except String (List Database.Subscriber))
        (sendOk sendOk2 : String → Bool),
      (broadcastMessage false getAll sendOk).tally
        = (broadcastMessage true (.ok []) sendOk2).tally) := by
  exact ⟨fun _ _ => rfl, fun _ _ _ => rfl⟩

/-- Claim C3: `sendMessage` called before the client is ready returns `false`
(a reported failure, not a throw); in every case it returns `Except.ok` of a
boolean to its caller (never `Except.error`, i.e. never throws); when ready it
delegates to the underlying transport and returns `true` on success and
`false` on a transport failure (the failure being caught, not rethrown). -/
theorem c3_sendMessage_never_throws :
    (∀ clientSend : Except String Unit, sendMessage false clientSend = .ok false)
  ∧ (∀ (isReady : Bool) (clientSend : Except String Unit),
      ∃ b : Bool, sendMessage isReady clientSend = .ok b)
  ∧ sendMessage true (.ok ()) = .ok true
  ∧ (∀ e : String, sendMessage true (.error e) = .ok false) := by
  refine ⟨fun _ => rfl, fun isReady clientSend => ?_, rfl, fun _ => rfl⟩
  cases isReady with
  | false => exact ⟨false, rfl⟩
  | true => cases clientSend with
    | ok _ => exact ⟨true, rfl⟩
    | error _ => exact ⟨false, rfl⟩

/-- Claim C9: the disconnect handler clears the ready flag and invokes exactly
one `client.initialize()` call; no other event's handler invokes it; over any
event sequence, the number of re-initialization calls is exactly the number
of disconnect events (one reconnect attempt per disconnect, no retry limit). -/
theorem c9_disconnect_single_reconnect :
    (∀ s : ClientState,
        (handleEvent s .disconnected).isReady = false
      ∧ (handleEvent s .disconnected).initCalls = s.initCalls + 1)
  ∧ (∀ (s : ClientState) (e : Event), e ≠ .disconnected →
        (handleEvent s e).initCalls = s.initCalls)
  ∧ (∀ (s : ClientState) (es : List Event),
      (runEvents s es).initCalls = s.initCalls + es.count .disconnected) := by
  refine ⟨fun s => ⟨rfl, rfl⟩, fun s e he => ?_, fun s es => ?_⟩
  · cases e
    case disconnected => exact absurd rfl he
    all_goals rfl
  · induction es generalizing s with
    | nil => simp [runEvents]
    | cons e t ih =>
      show (runEvents (handleEvent s e) t).initCalls = _
      rw [ih]
      cases e
      case disconnected =>
        simp [handleEvent, List.count_cons]
        omega
      all_goals simp [handleEvent, List.count_cons]

/-- Witness for claim C9 at a concrete non-disconnect event. -/
theorem c9_disconnect_single_reconnect_witness :
    (Event.ready ≠ Event.disconnected)
  ∧ (handleEvent ⟨false, 0⟩ .ready).initCalls = (⟨false, 0⟩ : ClientState).initCalls :=
  ⟨by decide, c9_disconnect_single_reconnect.2.1 ⟨false, 0⟩ .ready (by decide)⟩

/-- Claim C10: a broadcast invoked with the client ready whose subscriber-list
read fails returns the tally `{success: 0, failed: 0}` with no send attempted,
and that tally is equal to both the not-ready tally and the
empty-subscriber-list tally, so a store read failure is indistinguishable to
the caller from an empty subscriber list. -/
theorem c10_broadcast_read_failure :
    ∀ (err : String) (sendOk : String → Bool)
      (getAll : Except String (List Database.Subscriber)),
      (broadcastMessage true (.error err) sendOk).tally = ⟨0, 0⟩
    ∧ (broadcastMessage true (.error err) sendOk).attempts = []
    ∧ (broadcastMessage true (.error err) sendOk).tally
        = (broadcastMessage false getAll sendOk).tally
    ∧ (broadcastMessage true (.error err) sendOk).tally
        = (broadcastMessage true (.ok []) sendOk).tally := by
  exact fun _ _ _ => ⟨rfl, rfl, rfl, rfl⟩

end WhatsAppService

namespace Database

/-- Claim C4: `addSubscriber` always resolves `true`; starting from a store
with no row for the identity, a first insert appends exactly one row carrying
the supplied first message, a second insert for the same identity leaves the
store unchanged (still exactly one row for that identity, counted by
`countP`), and every row for that identity carries the first insert's
first-message value. -/
theorem c4_addSubscriber_insert_if_absent (db : List Subscriber)
    (idv p1 f1 p2 f2 : String)
    (hnew : db.any (fun row => row.whatsapp_id == idv) = false) :
    (∀ (db2 : List Subscriber) (i p f : String), (addSubscriber db2 i p f).2 = true)
  ∧ (addSubscriber db idv p1 f1).1 = db ++ [⟨idv, p1, f1⟩]
  ∧ (addSubscriber (addSubscriber db idv p1 f1).1 idv p2 f2).1
      = db ++ [⟨idv, p1, f1⟩]
  ∧ ((addSubscriber (addSubscriber db idv p1 f1).1 idv p2 f2).1.countP
      (fun row => row.whatsapp_id == idv)) = 1
  ∧ (∀ row ∈ (addSubscriber (addSubscriber db idv p1 f1).1 idv p2 f2).1,
      row.whatsapp_id = idv → row.first_message = f1) := by
  have h1 : addSubscriber db idv p1 f1 = (db ++ [⟨idv, p1, f1⟩], true) := by
    simp [addSubscriber, hnew]
  have h2 : (db ++ [(⟨idv, p1, f1⟩ : Subscriber)]).any
      (fun row => row.whatsapp_id == idv) = true := by
    simp
  have h3 : addSubscriber (db ++ [⟨idv, p1, f1⟩]) idv p2 f2
      = (db ++ [⟨idv, p1, f1⟩], true) := by
    simp [addSubscriber, h2]
  have hz : db.countP (fun row => row.whatsapp_id == idv) = 0 := by
    rw [List.countP_eq_zero]
    intro a ha
    simp only [List.any_eq_false] at hnew
    simpa using hnew a ha
  have hmem : ∀ row ∈ db, row.whatsapp_id ≠ idv := by
    intro a ha
    simp only [List.any_eq_false] at hnew
    simpa using hnew a ha
  refine ⟨?_, by rw [h1], by rw [h1, h3], ?_, ?_⟩
  · intro db2 i p f
    unfold addSubscriber
    split <;> rfl
  · rw [h1, h3, List.countP_append, hz]
    simp
  · rw [h1, h3]
    intro row hrow hid
    rcases List.mem_append.mp hrow with hl | hr
    · exact absurd hid (hmem row hl)
    · simp only [List.mem_singleton] at hr
      rw [hr]

/-- Witness for claim C4 on the empty store with a concrete identity. -/
theorem c4_addSubscriber_insert_if_absent_witness :
    (([] : List Subscriber).any (fun row => row.whatsapp_id == "u@c.us") = false)
  ∧ (addSubscriber (addSubscriber [] "u@c.us" "555" "hello").1 "u@c.us" "556" "bye").1
      = [] ++ [⟨"u@c.us", "555", "hello"⟩] :=
  ⟨by decide,
    (c4_addSubscriber_insert_if_absent [] "u@c.us" "555" "hello" "556" "bye"
      (by decide)).2.2.1⟩

/-- Iterated `logMessage` lands each new row at the end, pairing each text
with the table length at its insertion time. -/
theorem logMessages_eq (idv : String) (texts : List String) :
    ∀ msgs : List MessageRow,
    logMessages msgs idv texts
      = msgs ++ (texts.zip (List.range' msgs.length texts.length)).map
          (fun p => ⟨idv, p.1, p.2⟩) := by
  induction texts with
  | nil => intro msgs; simp [logMessages]
  | cons t ts ih =>
    intro msgs
    show logMessages (msgs ++ [⟨idv, t, msgs.length⟩]) idv ts = _
    rw [ih]
    simp [List.range', List.append_assoc]

/-- Claim C5: `logMessage` is append-only and unconditional — N calls for one
identity append exactly N rows after the untouched existing rows (`take`
returns the old table, total length grows by N), the new rows carry the N
texts in call order for that identity, their timestamps are strictly
increasing (order preserved by timestamp), and the row count for the identity
grows by exactly N. -/
theorem c5_logMessage_append_only (msgs : List MessageRow) (idv : String)
    (texts : List String) :
    logMessages msgs idv texts
      = msgs ++ (texts.zip (List.range' msgs.length texts.length)).map
          (fun p => ⟨idv, p.1, p.2⟩)
  ∧ (logMessages msgs idv texts).length = msgs.length + texts.length
  ∧ (logMessages msgs idv texts).take msgs.length = msgs
  ∧ ((logMessages msgs idv texts).drop msgs.length).map (fun r => r.message) = texts
  ∧ ((logMessages msgs idv texts).drop msgs.length).map (fun r => r.whatsapp_id)
      = List.replicate texts.length idv
  ∧ List.Pairwise (· < ·)
      (((logMessages msgs idv texts).drop msgs.length).map (fun r => r.received_at))
  ∧ (logMessages msgs idv texts).countP (fun r => r.whatsapp_id == idv)
      = msgs.countP (fun r => r.whatsapp_id == idv) + texts.length := by
  have hmain := logMessages_eq idv texts msgs
  have hlen : (texts.zip (List.range' msgs.length texts.length)).length
      = texts.length := by
    simp [List.length_zip, List.length_range']
  have hdrop : (logMessages msgs idv texts).drop msgs.length
      = (texts.zip (List.range' msgs.length texts.length)).map
          (fun p => (⟨idv, p.1, p.2⟩ : MessageRow)) := by
    rw [hmain, List.drop_left]
  refine ⟨hmain, ?_, ?_, ?_, ?_, ?_, ?_⟩
  · rw [hmain]; simp [hlen]
  · rw [hmain, List.take_left]
  · rw [hdrop, List.map_map]
    have : ((fun r : MessageRow => r.message)
        ∘ fun p : String × Nat => (⟨idv, p.1, p.2⟩ : MessageRow)) = Prod.fst := rfl
    rw [this, List.map_fst_zip]
    simp [List.length_range']
  · rw [hdrop, List.map_map]
    rw [List.eq_replicate_iff]
    constructor
    · simp [hlen]
    · intro b hb
      simp only [List.mem_map, Function.comp] at hb
      obtain ⟨p, _, hp⟩ := hb
      exact hp.symm
  · rw [hdrop, List.map_map]
    have : ((fun r : MessageRow => r.received_at)
        ∘ fun p : String × Nat => (⟨idv, p.1, p.2⟩ : MessageRow)) = Prod.snd := rfl
    rw [this, List.map_snd_zip]
    · exact List.pairwise_lt_range' _ _
    · simp [List.length_range']
  · rw [hmain, List.countP_append]
    have hall : ∀ a ∈ (texts.zip (List.range' msgs.length texts.length)).map
        (fun p => (⟨idv, p.1, p.2⟩ : MessageRow)),
        (fun r : MessageRow => r.whatsapp_id == idv) a = true := by
      intro a ha
      simp only [List.mem_map] at ha
      obtain ⟨p, _, hp⟩ := ha
      rw [← hp]
      simp
    rw [List.countP_eq_length.mpr hall, List.length_map, hlen]

end Database

namespace WhatsAppService

/-- Claim C7: command dispatch is an exact case-insensitive match against the
fixed table — "hola" in any casing yields the greeting reply, "!info" in any
casing echoes the message dump, "!ayuda"/"!help" yield the command list, and
any body whose lowering matches none of the four entries yields no reply
(silent no-op, not an error); in particular "HOLA" triggers the greeting and
"bye" produces nothing. -/
theorem c7_command_dispatch :
    (∀ dump : String,
        handleCommands dump "HOLA".data = some greetingReply
      ∧ handleCommands dump "HoLa".data = some greetingReply
      ∧ handleCommands dump "hola".data = some greetingReply
      ∧ handleCommands dump "!INFO".data = some ("Aquí está tu info:\n" ++ dump)
      ∧ handleCommands dump "!AyUdA".data = some helpReply
      ∧ handleCommands dump "!HELP".data = some helpReply
      ∧ handleCommands dump "bye".data = none)
  ∧ (∀ (dump : String) (body : List Char),
      jsToLower body ≠ "hola".data → jsToLower body ≠ "!info".data →
      jsToLower body ≠ "!ayuda".data → jsToLower body ≠ "!help".data →
      handleCommands dump body = none) := by
  constructor
  · intro dump
    exact ⟨rfl, rfl, rfl, rfl, rfl, rfl, rfl⟩
  · intro dump body h1 h2 h3 h4
    simp [handleCommands, h1, h2, h3, h4]

/-- Witness for claim C7 at the concrete unmatched body "bye". -/
theorem c7_command_dispatch_witness :
    (jsToLower "bye".data ≠ "hola".data)
  ∧ (jsToLower "bye".data ≠ "!info".data)
  ∧ (jsToLower "bye".data ≠ "!ayuda".data)
  ∧ (jsToLower "bye".data ≠ "!help".data)
  ∧ handleCommands "d" "bye".data = none :=
  ⟨by decide, by decide, by decide, by decide,
    c7_command_dispatch.2 "d" "bye".data (by decide) (by decide) (by decide)
      (by decide)⟩

/-- `jsSplit` always returns at least one piece, like JS `split`. -/
theorem jsSplit_ne_nil (sep : Char) (s : List Char) : jsSplit sep s ≠ [] := by
  induction s with
  | nil => simp [jsSplit]
  | cons c cs ih =>
    by_cases h : c = sep
    · simp [jsSplit, h]
    · simp only [jsSplit, if_neg h]
      cases hs : jsSplit sep cs <;> simp

/-- Splitting a string whose first separator occurrence follows `pre` yields
`pre` as the first piece. -/
theorem jsSplit_sep_split (sep : Char) (post : List Char) (pre : List Char)
    (h : sep ∉ pre) :
    jsSplit sep (pre ++ sep :: post) = pre :: jsSplit sep post := by
  induction pre with
  | nil => simp [jsSplit]
  | cons c cs ih =>
    have hc : ¬(c = sep) := fun hh => h (hh ▸ List.mem_cons_self c cs)
    have hcs : sep ∉ cs := fun hh => h (List.mem_cons_of_mem c hh)
    simp only [List.cons_append, jsSplit, if_neg hc]
    rw [show cs.append (sep :: post) = cs ++ sep :: post from rfl, ih hcs]

/-- Splitting a string with no separator occurrence yields the whole string
as the only piece. -/
theorem jsSplit_no_sep (sep : Char) (s : List Char) (h : sep ∉ s) :
    jsSplit sep s = [s] := by
  induction s with
  | nil => rfl
  | cons c cs ih =>
    have hc : ¬(c = sep) := fun hh => h (hh ▸ List.mem_cons_self c cs)
    have hcs : sep ∉ cs := fun hh => h (List.mem_cons_of_mem c hh)
    simp only [jsSplit, if_neg hc, ih hcs]

/-- Claim C8: the derived phone number is the prefix of the raw sender
address before the first separator character — splitting off everything after
and including the separator; an address without the separator is returned
whole; in particular "5551234567@c.us" yields "5551234567". -/
theorem c8_extract_phone :
    (∀ (pre post : List Char), '@' ∉ pre →
        extractPhone (pre ++ '@' :: post) = pre)
  ∧ (∀ s : List Char, '@' ∉ s → extractPhone s = s)
  ∧ extractPhone "5551234567@c.us".data = "5551234567".data := by
  refine ⟨fun pre post h => ?_, fun s h => ?_, by decide⟩
  · rw [extractPhone, jsSplit_sep_split '@' post pre h]
    rfl
  · rw [extractPhone, jsSplit_no_sep '@' s h]
    rfl

/-- Witness for claim C8 at the concrete address "5551234567@c.us". -/
theorem c8_extract_phone_witness :
    ('@' ∉ "5551234567".data)
  ∧ extractPhone ("5551234567".data ++ '@' :: "c.us".data) = "5551234567".data :=
  ⟨by decide, c8_extract_phone.1 "5551234567".data "c.us".data (by decide)⟩

end WhatsAppService

namespace ApiServer

/-- Counterexample to claim C6 as stated: in the request body
`{to: "", message: "hello"}` both fields are present, yet the route answers
400 without invoking `sendMessage` (JS falsiness of the empty string), not
200/500 after invoking it. -/
theorem c6_postSend_counterexample :
    postSend (some "") (some "hello") true = ⟨400, false, false⟩
  ∧ postSend (some "") (some "hello") true ≠ ⟨200, true, true⟩ := by
  constructor
  · rfl
  · intro h
    simp [postSend, truthy] at h

/-- Claim C6 (amended): a `POST /api/send` body missing the `to` field or the
`message` field — and more generally one where either field is absent or the
empty string (JS falsy) — is answered 400 with `success:false` and
`sendMessage` is not invoked; when both fields are present and non-empty the
route invokes `sendMessage` and answers 200 `success:true` if it reports
success and 500 `success:false` if it reports failure. -/
theorem c6_postSend_amended (toField messageField : Option String)
    (sendResult : Bool) :
    (toField = none ∨ messageField = none →
        postSend toField messageField sendResult = ⟨400, false, false⟩)
  ∧ (truthy toField = false ∨ truthy messageField = false →
        postSend toField messageField sendResult = ⟨400, false, false⟩)
  ∧ (truthy toField = true → truthy messageField = true →
        (postSend toField messageField sendResult).invoked = true
      ∧ (sendResult = true →
          postSend toField messageField sendResult = ⟨200, true, true⟩)
      ∧ (sendResult = false →
          postSend toField messageField sendResult = ⟨500, false, true⟩)) := by
  refine ⟨?_, ?_, ?_⟩
  · rintro (h | h) <;> subst h <;> simp [postSend, truthy]
  · rintro (h | h) <;> simp [postSend, h]
  · intro ht hm
    cases sendResult <;> simp [postSend, ht, hm]

/-- Witness for the amended claim C6 at a concrete valid request. -/
theorem c6_postSend_amended_witness :
    truthy (some "123") = true
  ∧ truthy (some "hi") = true
  ∧ (postSend (some "123") (some "hi") true).invoked = true :=
  ⟨by decide, by decide,
    ((c6_postSend_amended (some "123") (some "hi") true).2.2 (by decide)
      (by decide)).1⟩

end ApiServer
